import Mathlib

/-!
Shallow embedding of the Vayu backend's aggregation and retention engine
(src/backend/app/crud.py, src/backend/app/models.py, src/backend/app/main.py,
src/backend/app/config.py).

Timestamps are modelled as `Int` seconds since the epoch; Python `datetime`
arithmetic (`timedelta`, `.replace(minute=0, ...)`) becomes integer
arithmetic with floor division (calendar flooring always rounds toward the
past).  SQL float columns are modelled as `Rat` so that AVG/MIN/MAX are exact
and executable.  Each SQLAlchemy table is a `List` of row records inside a
`DB` record; autoincrement primary keys are modelled by per-table counters.
-/

namespace Vayu

/-- Seconds in one hour (`timedelta(hours=1)`). -/
def hourSeconds : Int := 3600

/-- Seconds in one day (`timedelta(days=1)`). -/
def daySeconds : Int := 86400

/-- Python `dt.replace(minute=0, second=0, microsecond=0)`: floor a timestamp
to the start of its hour. -/
def floorToHour (t : Int) : Int := 3600 * Int.ediv t 3600

/-- Python `dt.replace(hour=0, minute=0, second=0, microsecond=0)`: floor a
timestamp to the start of its day. -/
def floorToDay (t : Int) : Int := 86400 * Int.ediv t 86400

/-- Python `dt.hour` for a UTC datetime with timestamp `t`. -/
def hourOfDay (t : Int) : Int := Int.emod (Int.ediv t 3600) 24

/-- Retention setting from app/config.py: `RAW_DATA_RETENTION_DAYS = 1`. -/
def RAW_DATA_RETENTION_DAYS : Int := 1

/-- Retention setting from app/config.py: `HOURLY_DATA_RETENTION_DAYS = 7`. -/
def HOURLY_DATA_RETENTION_DAYS : Int := 7

/-- Retention setting from app/config.py: `DAILY_DATA_RETENTION_DAYS = 14`. -/
def DAILY_DATA_RETENTION_DAYS : Int := 14

/-- Row of the `sensor_readings` table (models.SensorReading). -/
structure SensorReading where
  id : Nat
  temperature : Rat
  humidity : Rat
  air_quality_voltage : Rat
  air_quality_level : String
  timestamp : Int
deriving DecidableEq

/-- Row of the `hourly_aggregates` table (models.HourlyAggregate).  The
`hour_start` column carries `unique=True` in the schema. -/
structure HourlyAggregate where
  id : Nat
  hour_start : Int
  temp_avg : Rat
  temp_min : Rat
  temp_max : Rat
  humidity_avg : Rat
  humidity_min : Rat
  humidity_max : Rat
  aq_voltage_avg : Rat
  aq_voltage_min : Rat
  aq_voltage_max : Rat
  reading_count : Nat
  created_at : Int
deriving DecidableEq

/-- Row of the `daily_aggregates` table (models.DailyAggregate).  The `date`
column carries `unique=True` in the schema. -/
structure DailyAggregate where
  id : Nat
  date : Int
  temp_avg : Rat
  temp_min : Rat
  temp_max : Rat
  humidity_avg : Rat
  humidity_min : Rat
  humidity_max : Rat
  aq_voltage_avg : Rat
  aq_voltage_min : Rat
  aq_voltage_max : Rat
  reading_count : Nat
  created_at : Int
deriving DecidableEq

/-- The whole persisted state: the three tables of models.py plus the
autoincrement counters for their integer primary keys. -/
structure DB where
  sensor_readings : List SensorReading
  hourly_aggregates : List HourlyAggregate
  daily_aggregates : List DailyAggregate
  next_reading_id : Nat
  next_hourly_id : Nat
  next_daily_id : Nat
deriving DecidableEq

/-- The freshly initialised database (init_db creates the three empty
tables; SQLite autoincrement starts at 1). -/
def initialDB : DB :=
  { sensor_readings := []
    hourly_aggregates := []
    daily_aggregates := []
    next_reading_id := 1
    next_hourly_id := 1
    next_daily_id := 1 }

/-- Validated ingestion payload (schemas.SensorDataInput). -/
structure SensorDataInput where
  temperature : Rat
  humidity : Rat
  airQualityVoltage : Rat
  airQualityLevel : String
deriving DecidableEq

/-- crud.create_sensor_reading: appends one reading row with
`timestamp=datetime.utcnow()`; `now` stands for that clock read. -/
def create_sensor_reading (db : DB) (data : SensorDataInput) (now : Int) :
    SensorReading × DB :=
  let reading : SensorReading :=
    { id := db.next_reading_id
      temperature := data.temperature
      humidity := data.humidity
      air_quality_voltage := data.airQualityVoltage
      air_quality_level := data.airQualityLevel
      timestamp := now }
  (reading,
   { db with
      sensor_readings := db.sensor_readings ++ [reading]
      next_reading_id := db.next_reading_id + 1 })

/-- The rows matched by
`WHERE timestamp >= lo AND timestamp < hi` on `sensor_readings`. -/
def readingsInWindow (db : DB) (lo hi : Int) : List SensorReading :=
  db.sensor_readings.filter fun r => decide (lo ≤ r.timestamp ∧ r.timestamp < hi)

/-- SQL `AVG` over a column: sum divided by row count (only consulted when
the row count is positive). -/
def sqlAvg (l : List Rat) : Rat := l.sum / (l.length : Rat)

/-- SQL `MIN` over a nonempty column. -/
def sqlMin (l : List Rat) : Rat :=
  match l with
  | [] => 0
  | x :: xs => xs.foldl min x

/-- SQL `MAX` over a nonempty column. -/
def sqlMax (l : List Rat) : Rat :=
  match l with
  | [] => 0
  | x :: xs => xs.foldl max x

/-- Result row of the aggregate SELECT in create_hourly_aggregate and
create_daily_aggregate: avg/min/max for the three metrics plus COUNT. -/
structure AggStats where
  temp_avg : Rat
  temp_min : Rat
  temp_max : Rat
  humidity_avg : Rat
  humidity_min : Rat
  humidity_max : Rat
  aq_avg : Rat
  aq_min : Rat
  aq_max : Rat
  count : Nat
deriving DecidableEq

/-- The single aggregate SELECT over readings in `[lo, hi)`. -/
def aggregate_query (db : DB) (lo hi : Int) : AggStats :=
  let rs := readingsInWindow db lo hi
  { temp_avg := sqlAvg (rs.map (·.temperature))
    temp_min := sqlMin (rs.map (·.temperature))
    temp_max := sqlMax (rs.map (·.temperature))
    humidity_avg := sqlAvg (rs.map (·.humidity))
    humidity_min := sqlMin (rs.map (·.humidity))
    humidity_max := sqlMax (rs.map (·.humidity))
    aq_avg := sqlAvg (rs.map (·.air_quality_voltage))
    aq_min := sqlMin (rs.map (·.air_quality_voltage))
    aq_max := sqlMax (rs.map (·.air_quality_voltage))
    count := rs.length }

/-- Which of the three `return` sites of create_hourly_aggregate /
create_daily_aggregate was taken.  The Python functions collapse the last
two to the same value `None`; `returnValue` below performs that collapse. -/
inductive BuildOutcome (α : Type) where
  | created (aggregate : α)
  | alreadyExists
  | empty
deriving DecidableEq

/-- The actual Python return value of the builder: the new aggregate on the
`created` path, and `None` on both the `alreadyExists` and `empty` paths. -/
def BuildOutcome.returnValue {α : Type} : BuildOutcome α → Option α
  | .created a => some a
  | .alreadyExists => none
  | .empty => none

/-- The hourly row assembled from the aggregate SELECT's values, as built
by the `HourlyAggregate(...)` constructor call in create_hourly_aggregate. -/
def mkHourlyAggregate (db : DB) (hour_start now : Int) : HourlyAggregate :=
  let stats := aggregate_query db hour_start (hour_start + hourSeconds)
  { id := db.next_hourly_id
    hour_start := hour_start
    temp_avg := stats.temp_avg
    temp_min := stats.temp_min
    temp_max := stats.temp_max
    humidity_avg := stats.humidity_avg
    humidity_min := stats.humidity_min
    humidity_max := stats.humidity_max
    aq_voltage_avg := stats.aq_avg
    aq_voltage_min := stats.aq_min
    aq_voltage_max := stats.aq_max
    reading_count := stats.count
    created_at := now }

/-- The daily row assembled from the aggregate SELECT's values, as built
by the `DailyAggregate(...)` constructor call in create_daily_aggregate
(keyed on the internally floored `day_start`). -/
def mkDailyAggregate (db : DB) (date now : Int) : DailyAggregate :=
  let day_start := floorToDay date
  let stats := aggregate_query db day_start (day_start + daySeconds)
  { id := db.next_daily_id
    date := day_start
    temp_avg := stats.temp_avg
    temp_min := stats.temp_min
    temp_max := stats.temp_max
    humidity_avg := stats.humidity_avg
    humidity_min := stats.humidity_min
    humidity_max := stats.humidity_max
    aq_voltage_avg := stats.aq_avg
    aq_voltage_min := stats.aq_min
    aq_voltage_max := stats.aq_max
    reading_count := stats.count
    created_at := now }

/-- crud.create_hourly_aggregate.  `now` stands for the
`datetime.utcnow()` read used for `created_at`.  Steps, in source order:
compute the aggregate SELECT over `[hour_start, hour_start+1h)`; if the
count is positive, run the existence check on `hour_start` and either bail
out (row exists) or insert and commit the new row; if the count is zero,
fall through and return `None`. -/
def create_hourly_aggregate (db : DB) (hour_start : Int) (now : Int) :
    BuildOutcome HourlyAggregate × DB :=
  let hour_end := hour_start + hourSeconds
  let stats := aggregate_query db hour_start hour_end
  if stats.count > 0 then
    match db.hourly_aggregates.find? (fun a => a.hour_start == hour_start) with
    | some _ => (.alreadyExists, db)
    | none =>
      let aggregate := mkHourlyAggregate db hour_start now
      (.created aggregate,
       { db with
          hourly_aggregates := db.hourly_aggregates ++ [aggregate]
          next_hourly_id := db.next_hourly_id + 1 })
  else (.empty, db)

/-- crud.create_daily_aggregate.  Unlike the hourly builder it floors its
input itself: `day_start = date.replace(hour=0, minute=0, second=0,
microsecond=0)`; the window is `[day_start, day_start+1day)` and the
existence check and insert both use `day_start` as the key. -/
def create_daily_aggregate (db : DB) (date : Int) (now : Int) :
    BuildOutcome DailyAggregate × DB :=
  let day_start := floorToDay date
  let day_end := day_start + daySeconds
  let stats := aggregate_query db day_start day_end
  if stats.count > 0 then
    match db.daily_aggregates.find? (fun a => a.date == day_start) with
    | some _ => (.alreadyExists, db)
    | none =>
      let aggregate := mkDailyAggregate db date now
      (.created aggregate,
       { db with
          daily_aggregates := db.daily_aggregates ++ [aggregate]
          next_daily_id := db.next_daily_id + 1 })
  else (.empty, db)

/-- Effects of one crud.cleanup_old_data run: the database afterwards, the
three rowcounts reported by the `logger.info` calls, and the Python return
value.  The function body ends without a `return` statement, so its value
is always `None`; the counts are only logged. -/
structure CleanupResult where
  db : DB
  raw_deleted : Nat
  hourly_deleted : Nat
  daily_deleted : Nat
  returned : Option (Nat × Nat × Nat)
deriving DecidableEq

/-- crud.cleanup_old_data.  `now = datetime.utcnow()` is passed explicitly.
Three DELETEs, each followed by its own `commit`: readings with
`timestamp < now - 1 day`, hourly rows with `hour_start < now - 7 days`,
daily rows with `date < now - 14 days`.  Each rowcount is logged; nothing
is returned. -/
def cleanup_old_data (db : DB) (now : Int) : CleanupResult :=
  let raw_cutoff := now - RAW_DATA_RETENTION_DAYS * daySeconds
  let raw_deleted :=
    (db.sensor_readings.filter fun r => decide (r.timestamp < raw_cutoff)).length
  let readings1 :=
    db.sensor_readings.filter fun r => !(decide (r.timestamp < raw_cutoff))
  let hourly_cutoff := now - HOURLY_DATA_RETENTION_DAYS * daySeconds
  let hourly_deleted :=
    (db.hourly_aggregates.filter fun a => decide (a.hour_start < hourly_cutoff)).length
  let hourly1 :=
    db.hourly_aggregates.filter fun a => !(decide (a.hour_start < hourly_cutoff))
  let daily_cutoff := now - DAILY_DATA_RETENTION_DAYS * daySeconds
  let daily_deleted :=
    (db.daily_aggregates.filter fun a => decide (a.date < daily_cutoff)).length
  let daily1 :=
    db.daily_aggregates.filter fun a => !(decide (a.date < daily_cutoff))
  { db := { db with
      sensor_readings := readings1
      hourly_aggregates := hourly1
      daily_aggregates := daily1 }
    raw_deleted := raw_deleted
    hourly_deleted := hourly_deleted
    daily_deleted := daily_deleted
    returned := none }

/-- The three tables touched by cleanup_old_data, in the order the source
processes them. -/
inductive Tier where
  | raw
  | hourly
  | daily
deriving DecidableEq

/-- Outcome of a cleanup_old_data run in which each of the three
`db.execute(delete ...)` statements may raise a store failure: `error`
records the tier whose DELETE raised (the exception propagates to the
caller at that point, there is no try/except in the function body), `db`
is the state actually persisted — tiers before the failing one were
already committed by their own `commit` calls, the failing tier and every
later tier are untouched. -/
structure CleanupAttempt where
  error : Option Tier
  db : DB
  raw_deleted : Nat
  hourly_deleted : Nat
  daily_deleted : Nat
deriving DecidableEq

/-- crud.cleanup_old_data with an injected failure oracle: `failsOn t`
means the DELETE statement of tier `t` raises a store failure when
executed.  The body has no exception handler, so the first failure aborts
the function; earlier tiers keep their committed deletions, later tiers
are never reached and counts for unreached tiers stay at their zero
initialisation. -/
def cleanup_old_data_fallible (failsOn : Tier → Bool) (db : DB) (now : Int) :
    CleanupAttempt :=
  let raw_cutoff := now - RAW_DATA_RETENTION_DAYS * daySeconds
  if failsOn .raw then
    { error := some .raw, db := db
      raw_deleted := 0, hourly_deleted := 0, daily_deleted := 0 }
  else
    let raw_deleted :=
      (db.sensor_readings.filter fun r => decide (r.timestamp < raw_cutoff)).length
    let db1 := { db with
      sensor_readings :=
        db.sensor_readings.filter fun r => !(decide (r.timestamp < raw_cutoff)) }
    let hourly_cutoff := now - HOURLY_DATA_RETENTION_DAYS * daySeconds
    if failsOn .hourly then
      { error := some .hourly, db := db1
        raw_deleted := raw_deleted, hourly_deleted := 0, daily_deleted := 0 }
    else
      let hourly_deleted :=
        (db1.hourly_aggregates.filter fun a => decide (a.hour_start < hourly_cutoff)).length
      let db2 := { db1 with
        hourly_aggregates :=
          db1.hourly_aggregates.filter fun a => !(decide (a.hour_start < hourly_cutoff)) }
      let daily_cutoff := now - DAILY_DATA_RETENTION_DAYS * daySeconds
      if failsOn .daily then
        { error := some .daily, db := db2
          raw_deleted := raw_deleted, hourly_deleted := hourly_deleted
          daily_deleted := 0 }
      else
        { error := none
          db := { db2 with
            daily_aggregates :=
              db2.daily_aggregates.filter fun a => !(decide (a.date < daily_cutoff)) }
          raw_deleted := raw_deleted
          hourly_deleted := hourly_deleted
          daily_deleted :=
            (db2.daily_aggregates.filter fun a => decide (a.date < daily_cutoff)).length }

/-- main.run_manual_aggregation (POST /api/aggregation/run): builds the
previous hour and yesterday from `now = datetime.utcnow()` and returns
a message whose per-tier fragment is the Python ternary
`'created' if result else 'already exists'` — keyed on the builder's
return value being truthy, i.e. not `None`. -/
structure ManualAggregationOutcome where
  hourly_status : String
  daily_status : String
  message : String
  db : DB
deriving DecidableEq

/-- main.run_manual_aggregation modelled on a given session state. -/
def run_manual_aggregation (db : DB) (now : Int) : ManualAggregationOutcome :=
  let prev_hour := floorToHour now - hourSeconds
  let hourlyStep := create_hourly_aggregate db prev_hour now
  let yesterday := floorToDay (now - daySeconds)
  let dailyStep := create_daily_aggregate hourlyStep.2 yesterday now
  let hourly_status :=
    if hourlyStep.1.returnValue.isSome then "created" else "already exists"
  let daily_status :=
    if dailyStep.1.returnValue.isSome then "created" else "already exists"
  { hourly_status := hourly_status
    daily_status := daily_status
    message := "Aggregation completed. Hourly: " ++ hourly_status ++
      ", Daily: " ++ daily_status
    db := dailyStep.2 }

/-- The names defined at module level in app/crud.py (its module
attributes).  `engine` is not among them: the engine lives in
app/database.py and crud.py never imports or defines it. -/
def crud_module_attrs : List String :=
  ["logger",
   "create_sensor_reading", "get_latest_reading", "get_readings_by_time_range",
   "get_total_readings_count", "get_hourly_aggregates", "create_hourly_aggregate",
   "get_daily_aggregates", "create_daily_aggregate", "cleanup_old_data",
   "get_statistics"]

/-- Python attribute lookup `crud.engine` as performed by main.py line
`AsyncSession(bind=crud.engine)`: yields an AttributeError (modelled as
`none`) because app/crud.py has no module attribute named `engine`. -/
def crud_engine : Option Unit :=
  if "engine" ∈ crud_module_attrs then some () else none

/-- The exception kinds a scheduler cycle can raise in this model. -/
inductive CycleError where
  | attributeError
deriving DecidableEq

/-- One iteration of the while-loop body of main.run_background_tasks,
entered at wakeup time `now` (after the `asyncio.sleep(3600)`), acting on
database state `db`.  The body first evaluates `crud.engine` to open a
session; on AttributeError nothing in the try-block runs.  Otherwise it
builds the previous hour, builds yesterday when `now.hour == 0`, and runs
cleanup_old_data. -/
def run_background_tasks_cycle (db : DB) (now : Int) : DB × Option CycleError :=
  match crud_engine with
  | none => (db, some .attributeError)
  | some _ =>
    let prev_hour := floorToHour now - hourSeconds
    let db1 := (create_hourly_aggregate db prev_hour now).2
    let db2 :=
      if hourOfDay now == 0 then
        (create_daily_aggregate db1 (floorToDay (now - daySeconds)) now).2
      else db1
    ((cleanup_old_data db2 now).db, none)

/-- main.run_background_tasks over a finite schedule of wakeup times: the
`except Exception` clause catches any error a cycle raises, logs it, and
the loop proceeds to the next sleep.  Returns the final database state and
the number of cycles that logged an error. -/
def run_background_tasks (db : DB) (wakeups : List Int) : DB × Nat :=
  wakeups.foldl
    (fun acc now =>
      let step := run_background_tasks_cycle acc.1 now
      (step.1, acc.2 + (if step.2.isSome then 1 else 0)))
    (db, 0)

/-- The interval of the scheduler loop: `await asyncio.sleep(3600)`. -/
def scheduler_sleep_seconds : Int := 3600

/-- One mutating operation of the repository, abstracting over which thin
caller (ingestion endpoint, scheduler, admin trigger, backfill script)
invoked it.  Clock reads are the `now` arguments. -/
inductive Op where
  | ingest (data : SensorDataInput) (now : Int)
  | buildHourly (hour_start : Int) (now : Int)
  | buildDaily (date : Int) (now : Int)
  | sweep (now : Int)
deriving DecidableEq

/-- Effect of one operation on the persisted state. -/
def applyOp (op : Op) (db : DB) : DB :=
  match op with
  | .ingest data now => (create_sensor_reading db data now).2
  | .buildHourly h now => (create_hourly_aggregate db h now).2
  | .buildDaily d now => (create_daily_aggregate db d now).2
  | .sweep now => (cleanup_old_data db now).db

/-- States reachable from the freshly initialised database when every
caller of the hourly builder pre-floors its input to an hour boundary
(the daily builder floors internally, so its input is unconstrained). -/
inductive Reachable : DB → Prop where
  | init : Reachable initialDB
  | ingest {db : DB} (data : SensorDataInput) (now : Int) :
      Reachable db → Reachable (applyOp (.ingest data now) db)
  | buildHourly {db : DB} (h now : Int) :
      Reachable db → h % 3600 = 0 →
      Reachable (applyOp (.buildHourly h now) db)
  | buildDaily {db : DB} (d now : Int) :
      Reachable db → Reachable (applyOp (.buildDaily d now) db)
  | sweep {db : DB} (now : Int) :
      Reachable db → Reachable (applyOp (.sweep now) db)

/-- What one concurrent caller of create_hourly_aggregate ultimately
observes.  `integrityError` is the IntegrityError the commit of the INSERT
raises when the UNIQUE constraint on `hour_start` is violated because the
other caller inserted between this caller's existence check and its
insert. -/
inductive CallerOutcome where
  | created (aggregate : HourlyAggregate)
  | alreadyExists
  | empty
  | integrityError
deriving DecidableEq

/-- Control point of one in-flight create_hourly_aggregate call.  Each
`await db.execute(...)` / commit is one atomic database access; between
them the coroutine can be suspended and the other call can run.
`atCheck`/`atInsert` carry the locals read so far (the aggregate SELECT's
row). -/
inductive ThreadPc where
  | atStats
  | atCheck (stats : AggStats)
  | atInsert (stats : AggStats)
  | finished (outcome : CallerOutcome)
deriving DecidableEq

/-- One atomic step of a create_hourly_aggregate call for window
`hour_start` (with `created_at` clock read `now`) from control point `pc`
against shared state `db`: run the aggregate SELECT (and finish with
`empty` if the count is zero — the `if stats.count > 0` test is local),
run the existence check, or run the INSERT+commit, which the UNIQUE
constraint on `hour_start` makes fail with IntegrityError if a row with
this key already exists by insert time. -/
def threadStep (hour_start now : Int) (db : DB) : ThreadPc → ThreadPc × DB
  | .atStats =>
    let stats := aggregate_query db hour_start (hour_start + hourSeconds)
    if stats.count > 0 then (.atCheck stats, db) else (.finished .empty, db)
  | .atCheck stats =>
    match db.hourly_aggregates.find? (fun a => a.hour_start == hour_start) with
    | some _ => (.finished .alreadyExists, db)
    | none => (.atInsert stats, db)
  | .atInsert stats =>
    if (db.hourly_aggregates.find? (fun a => a.hour_start == hour_start)).isSome then
      (.finished .integrityError, db)
    else
      let aggregate : HourlyAggregate :=
        { id := db.next_hourly_id
          hour_start := hour_start
          temp_avg := stats.temp_avg
          temp_min := stats.temp_min
          temp_max := stats.temp_max
          humidity_avg := stats.humidity_avg
          humidity_min := stats.humidity_min
          humidity_max := stats.humidity_max
          aq_voltage_avg := stats.aq_avg
          aq_voltage_min := stats.aq_min
          aq_voltage_max := stats.aq_max
          reading_count := stats.count
          created_at := now }
      (.finished (.created aggregate),
       { db with
          hourly_aggregates := db.hourly_aggregates ++ [aggregate]
          next_hourly_id := db.next_hourly_id + 1 })
  | .finished o => (.finished o, db)

/-- Joint state of two concurrent create_hourly_aggregate calls for the
same window key over one shared database. -/
structure TwoCallSys where
  pc0 : ThreadPc
  pc1 : ThreadPc
  db : DB
deriving DecidableEq

/-- Scheduling one atomic step: `false` advances caller 0, `true` advances
caller 1; a finished caller's step is a no-op. -/
def sysStep (hour_start now : Int) (b : Bool) (s : TwoCallSys) : TwoCallSys :=
  if b then
    let step := threadStep hour_start now s.db s.pc1
    { s with pc1 := step.1, db := step.2 }
  else
    let step := threadStep hour_start now s.db s.pc0
    { s with pc0 := step.1, db := step.2 }

/-- Run both calls under an arbitrary interleaving (list of scheduling
choices), both starting at their first database access. -/
def runTwoCalls (hour_start now : Int) (db : DB) (schedule : List Bool) :
    TwoCallSys :=
  schedule.foldl (fun s b => sysStep hour_start now b s)
    { pc0 := .atStats, pc1 := .atStats, db := db }

/-- Stored rows for a given hourly window key. -/
def hourlyRowsFor (db : DB) (hour_start : Int) : List HourlyAggregate :=
  db.hourly_aggregates.filter fun a => a.hour_start == hour_start

/-- Stored rows for a given daily window key. -/
def dailyRowsFor (db : DB) (date : Int) : List DailyAggregate :=
  db.daily_aggregates.filter fun a => a.date == date

/-- A sample raw reading used in concrete scenarios. -/
def sampleReading (id : Nat) (t : Int) : SensorReading :=
  { id := id
    temperature := 20
    humidity := 60
    air_quality_voltage := 1
    air_quality_level := "Good"
    timestamp := t }

/-- A sample ingestion payload used in concrete scenarios. -/
def sampleInput : SensorDataInput :=
  { temperature := 20
    humidity := 60
    airQualityVoltage := 1
    airQualityLevel := "Good" }

/-- A sample stored hourly aggregate row used in concrete scenarios. -/
def sampleHourly (id : Nat) (h : Int) : HourlyAggregate :=
  { id := id
    hour_start := h
    temp_avg := 20, temp_min := 20, temp_max := 20
    humidity_avg := 60, humidity_min := 60, humidity_max := 60
    aq_voltage_avg := 1, aq_voltage_min := 1, aq_voltage_max := 1
    reading_count := 5
    created_at := h + 3600 }

/-- A sample stored daily aggregate row used in concrete scenarios. -/
def sampleDaily (id : Nat) (d : Int) : DailyAggregate :=
  { id := id
    date := d
    temp_avg := 20, temp_min := 20, temp_max := 20
    humidity_avg := 60, humidity_min := 60, humidity_max := 60
    aq_voltage_avg := 1, aq_voltage_min := 1, aq_voltage_max := 1
    reading_count := 5
    created_at := d + 86400 }

/-- Database with one reading at t=100, used to instantiate the
double-build scenario: its hour window `[0, 3600)` and day window
`[0, 86400)` are both nonempty and no aggregate exists yet. -/
def c1DB : DB :=
  { initialDB with sensor_readings := [sampleReading 1 100], next_reading_id := 2 }

/-- Database with rows on both sides of every retention cutoff for
`now = 20 days`: readings at 0 (25 days beyond the 1-day cutoff) and at
day 19 + 10 s; hourly rows at 0 and day 14; daily rows at 0 and day 7. -/
def c4DB : DB :=
  { initialDB with
    sensor_readings := [sampleReading 1 0, sampleReading 2 (19 * 86400 + 10)]
    hourly_aggregates := [sampleHourly 1 0, sampleHourly 2 (14 * 86400)]
    daily_aggregates := [sampleDaily 1 0, sampleDaily 2 (7 * 86400)]
    next_reading_id := 3
    next_hourly_id := 3
    next_daily_id := 3 }

/-- The sweep instant for the retention scenario: day 20. -/
def c4Now : Int := 20 * 86400

/-- The concurrency scenario of the spec: one reading at 10:05 of day 0
(t = 36300), two concurrent buildHourly(10:00 = 36000) calls. -/
def c5DB : DB :=
  { initialDB with sensor_readings := [sampleReading 1 36300], next_reading_id := 2 }

/-- Clock read used for `created_at` in the concurrency scenario. -/
def c5Now : Int := 39605

/-- The row the aggregate SELECT returns in the concurrency scenario. -/
def c5Stats : AggStats := aggregate_query c5DB 36000 (36000 + hourSeconds)

/-- The unique aggregate row either caller can insert in the concurrency
scenario. -/
def c5Agg : HourlyAggregate :=
  { id := 1
    hour_start := 36000
    temp_avg := 20, temp_min := 20, temp_max := 20
    humidity_avg := 60, humidity_min := 60, humidity_max := 60
    aq_voltage_avg := 1, aq_voltage_min := 1, aq_voltage_max := 1
    reading_count := 1
    created_at := c5Now }

/-- Shared state after the winning caller's insert committed. -/
def c5DBAfter : DB :=
  { c5DB with hourly_aggregates := [c5Agg], next_hourly_id := 2 }

/-- Every joint state the two concurrent calls of the scenario can reach,
under any interleaving. -/
def c5ReachSet : List TwoCallSys :=
  [⟨.atStats, .atStats, c5DB⟩,
   ⟨.atStats, .atCheck c5Stats, c5DB⟩,
   ⟨.atCheck c5Stats, .atStats, c5DB⟩,
   ⟨.atCheck c5Stats, .atCheck c5Stats, c5DB⟩,
   ⟨.atStats, .atInsert c5Stats, c5DB⟩,
   ⟨.atInsert c5Stats, .atStats, c5DB⟩,
   ⟨.atCheck c5Stats, .atInsert c5Stats, c5DB⟩,
   ⟨.atInsert c5Stats, .atCheck c5Stats, c5DB⟩,
   ⟨.atInsert c5Stats, .atInsert c5Stats, c5DB⟩,
   ⟨.finished (.created c5Agg), .atStats, c5DBAfter⟩,
   ⟨.finished (.created c5Agg), .atCheck c5Stats, c5DBAfter⟩,
   ⟨.finished (.created c5Agg), .atInsert c5Stats, c5DBAfter⟩,
   ⟨.finished (.created c5Agg), .finished .alreadyExists, c5DBAfter⟩,
   ⟨.finished (.created c5Agg), .finished .integrityError, c5DBAfter⟩,
   ⟨.atStats, .finished (.created c5Agg), c5DBAfter⟩,
   ⟨.atCheck c5Stats, .finished (.created c5Agg), c5DBAfter⟩,
   ⟨.atInsert c5Stats, .finished (.created c5Agg), c5DBAfter⟩,
   ⟨.finished .alreadyExists, .finished (.created c5Agg), c5DBAfter⟩,
   ⟨.finished .integrityError, .finished (.created c5Agg), c5DBAfter⟩]

/-- Run of the spec's concurrency scenario under a given interleaving. -/
def c5Run (schedule : List Bool) : TwoCallSys :=
  runTwoCalls 36000 c5Now c5DB schedule

/-- The racing interleaving: both callers run their aggregate SELECT and
their existence check before either inserts. -/
def c5RaceSchedule : List Bool := [false, true, false, true, false, true]

/-- Has this call completed (returned or raised)? -/
def ThreadPc.isFinished : ThreadPc → Bool
  | .finished _ => true
  | _ => false

/-- Database holding one reading inside hour window 36000 and an existing
aggregate row for that window: the builder's duplicate-window case. -/
def c6DupDB : DB :=
  { initialDB with
    sensor_readings := [sampleReading 1 36300]
    hourly_aggregates := [sampleHourly 1 36000]
    next_reading_id := 2
    next_hourly_id := 2 }

/-- Reachable state with two hourly and two daily aggregates: three
ingested readings (t = 100, 3700, 90000) followed by pre-floored
buildHourly(0), buildHourly(3600), buildDaily(0), buildDaily(86400). -/
def c7WitnessDB : DB :=
  applyOp (.buildDaily 86400 300)
    (applyOp (.buildDaily 0 300)
      (applyOp (.buildHourly 3600 200)
        (applyOp (.buildHourly 0 200)
          (applyOp (.ingest sampleInput 90000)
            (applyOp (.ingest sampleInput 3700)
              (applyOp (.ingest sampleInput 100) initialDB))))))

/-- Placeholder hourly row for total list indexing. -/
def dummyHourly : HourlyAggregate := sampleHourly 0 0

/-- Placeholder daily row for total list indexing. -/
def dummyDaily : DailyAggregate := sampleDaily 0 0

/-- First stored hourly aggregate of the reachable witness state. -/
def c7RowA : HourlyAggregate := c7WitnessDB.hourly_aggregates.getD 0 dummyHourly

/-- Second stored hourly aggregate of the reachable witness state. -/
def c7RowB : HourlyAggregate := c7WitnessDB.hourly_aggregates.getD 1 dummyHourly

/-- First stored daily aggregate of the reachable witness state. -/
def c7RowC : DailyAggregate := c7WitnessDB.daily_aggregates.getD 0 dummyDaily

/-- Second stored daily aggregate of the reachable witness state. -/
def c7RowD : DailyAggregate := c7WitnessDB.daily_aggregates.getD 1 dummyDaily

/-- Database with one expired row in each tier (all at time 0). -/
def c8DB : DB :=
  { initialDB with
    sensor_readings := [sampleReading 1 0]
    hourly_aggregates := [sampleHourly 1 0]
    daily_aggregates := [sampleDaily 1 0]
    next_reading_id := 2
    next_hourly_id := 2
    next_daily_id := 2 }

/-- The sweep instant for the failure scenarios: day 20, making the rows
of `c8DB` expired in every tier. -/
def c8Now : Int := 20 * 86400

/-- Failure oracle: the raw tier's DELETE raises a store failure. -/
def c8FailRaw : Tier → Bool
  | .raw => true
  | _ => false

/-- Failure oracle: the hourly tier's DELETE raises a store failure. -/
def c8FailHourly : Tier → Bool
  | .hourly => true
  | _ => false

/-- Database with one expired row in each tier, for the sweep-counts
scenario. -/
def c10DB : DB :=
  { initialDB with
    sensor_readings := [sampleReading 1 0]
    hourly_aggregates := [sampleHourly 1 0]
    daily_aggregates := [sampleDaily 1 0]
    next_reading_id := 2
    next_hourly_id := 2
    next_daily_id := 2 }

/-! Helper lemmas. -/

lemma filter_nil_of_find?_none {α : Type} (p : α → Bool) (l : List α)
    (h : l.find? p = none) : l.filter p = [] := by
  simp only [List.find?_eq_none] at h
  exact List.filter_eq_nil_iff.mpr h

lemma create_hourly_shape (db : DB) (h now : Int) :
    (∃ x, db.hourly_aggregates.find? (fun a => a.hour_start == h) = some x ∧
       readingsInWindow db h (h + hourSeconds) ≠ [] ∧
       create_hourly_aggregate db h now = (.alreadyExists, db))
    ∨ (readingsInWindow db h (h + hourSeconds) = [] ∧
       create_hourly_aggregate db h now = (.empty, db))
    ∨ (∃ a : HourlyAggregate,
       db.hourly_aggregates.find? (fun x => x.hour_start == h) = none ∧
       readingsInWindow db h (h + hourSeconds) ≠ [] ∧
       a = mkHourlyAggregate db h now ∧
       a.hour_start = h ∧
       a.reading_count = (readingsInWindow db h (h + hourSeconds)).length ∧
       create_hourly_aggregate db h now =
         (.created a,
          { db with
              hourly_aggregates := db.hourly_aggregates ++ [a]
              next_hourly_id := db.next_hourly_id + 1 })) := by
  by_cases hc : 0 < (readingsInWindow db h (h + hourSeconds)).length
  · have hcount : 0 < (aggregate_query db h (h + hourSeconds)).count := by
      simpa [aggregate_query] using hc
    have hne : readingsInWindow db h (h + hourSeconds) ≠ [] := by
      simpa using List.length_pos.mp hc
    cases hf : db.hourly_aggregates.find? (fun a => a.hour_start == h) with
    | some x =>
      left
      refine ⟨x, rfl, hne, ?_⟩
      simp only [create_hourly_aggregate]
      rw [if_pos hcount, hf]
    | none =>
      right; right
      refine ⟨mkHourlyAggregate db h now, rfl, hne, rfl, rfl, ?_, ?_⟩
      · simp [mkHourlyAggregate, aggregate_query]
      · simp only [create_hourly_aggregate]
        rw [if_pos hcount, hf]
  · right; left
    have he : readingsInWindow db h (h + hourSeconds) = [] := by
      simpa using List.eq_nil_of_length_eq_zero (by omega)
    have hcount : ¬ 0 < (aggregate_query db h (h + hourSeconds)).count := by
      simpa [aggregate_query] using hc
    refine ⟨he, ?_⟩
    simp only [create_hourly_aggregate]
    rw [if_neg hcount]

lemma create_daily_shape (db : DB) (d now : Int) :
    (∃ x, db.daily_aggregates.find? (fun a => a.date == floorToDay d) = some x ∧
       readingsInWindow db (floorToDay d) (floorToDay d + daySeconds) ≠ [] ∧
       create_daily_aggregate db d now = (.alreadyExists, db))
    ∨ (readingsInWindow db (floorToDay d) (floorToDay d + daySeconds) = [] ∧
       create_daily_aggregate db d now = (.empty, db))
    ∨ (∃ a : DailyAggregate,
       db.daily_aggregates.find? (fun x => x.date == floorToDay d) = none ∧
       readingsInWindow db (floorToDay d) (floorToDay d + daySeconds) ≠ [] ∧
       a = mkDailyAggregate db d now ∧
       a.date = floorToDay d ∧
       a.reading_count =
         (readingsInWindow db (floorToDay d) (floorToDay d + daySeconds)).length ∧
       create_daily_aggregate db d now =
         (.created a,
          { db with
              daily_aggregates := db.daily_aggregates ++ [a]
              next_daily_id := db.next_daily_id + 1 })) := by
  by_cases hc : 0 < (readingsInWindow db (floorToDay d) (floorToDay d + daySeconds)).length
  · have hcount : 0 < (aggregate_query db (floorToDay d) (floorToDay d + daySeconds)).count := by
      simpa [aggregate_query] using hc
    have hne : readingsInWindow db (floorToDay d) (floorToDay d + daySeconds) ≠ [] := by
      simpa using List.length_pos.mp hc
    cases hf : db.daily_aggregates.find? (fun a => a.date == floorToDay d) with
    | some x =>
      left
      refine ⟨x, rfl, hne, ?_⟩
      simp only [create_daily_aggregate]
      rw [if_pos hcount, hf]
    | none =>
      right; right
      refine ⟨mkDailyAggregate db d now, rfl, hne, rfl, rfl, ?_, ?_⟩
      · simp [mkDailyAggregate, aggregate_query]
      · simp only [create_daily_aggregate]
        rw [if_pos hcount, hf]
  · right; left
    have he : readingsInWindow db (floorToDay d) (floorToDay d + daySeconds) = [] := by
      simpa using List.eq_nil_of_length_eq_zero (by omega)
    have hcount : ¬ 0 < (aggregate_query db (floorToDay d) (floorToDay d + daySeconds)).count := by
      simpa [aggregate_query] using hc
    refine ⟨he, ?_⟩
    simp only [create_daily_aggregate]
    rw [if_neg hcount]

lemma create_hourly_db_facts (db : DB) (h now : Int) :
    (create_hourly_aggregate db h now).2.sensor_readings = db.sensor_readings ∧
    (create_hourly_aggregate db h now).2.daily_aggregates = db.daily_aggregates := by
  rcases create_hourly_shape db h now with ⟨x, _, _, heq⟩ | ⟨_, heq⟩ | ⟨a, _, _, _, _, _, heq⟩ <;>
    rw [heq]<;> exact ⟨rfl, rfl⟩

lemma create_daily_db_facts (db : DB) (d now : Int) :
    (create_daily_aggregate db d now).2.sensor_readings = db.sensor_readings ∧
    (create_daily_aggregate db d now).2.hourly_aggregates = db.hourly_aggregates := by
  rcases create_daily_shape db d now with ⟨x, _, _, heq⟩ | ⟨_, heq⟩ | ⟨a, _, _, _, _, _, heq⟩ <;>
    rw [heq]<;> exact ⟨rfl, rfl⟩

lemma readingsInWindow_congr {db db' : DB}
    (hs : db'.sensor_readings = db.sensor_readings) (lo hi : Int) :
    readingsInWindow db' lo hi = readingsInWindow db lo hi := by
  simp [readingsInWindow, hs]

/-- C3: for a window with zero readings, buildHourly writes no row, leaves
the store unchanged, and returns the Empty outcome (the third return path,
a normal negative result, not an error). -/
theorem c3_empty_window_stores_nothing (db : DB) (h now : Int)
    (hempty : readingsInWindow db h (h + hourSeconds) = []) :
    create_hourly_aggregate db h now = (.empty, db) := by
  rcases create_hourly_shape db h now with ⟨x, _, hne, _⟩ | ⟨_, heq⟩ | ⟨a, _, hne, _, _, _, _⟩
  · exact absurd hempty hne
  · exact heq
  · exact absurd hempty hne

/-- Witness: on the empty initial database, buildHourly(0) returns Empty
and stores nothing. -/
theorem c3_empty_window_stores_nothing_witness :
    readingsInWindow initialDB 0 (0 + hourSeconds) = [] ∧
    create_hourly_aggregate initialDB 0 50 = (.empty, initialDB) :=
  ⟨by decide, c3_empty_window_stores_nothing initialDB 0 50 (by decide)⟩

/-- C1: building the same nonempty window twice in sequence stores exactly
one aggregate row for it; the second invocation takes the already-exists
return path (no row written, state unchanged, no error).  Stated for the
hourly builder and, per day window, for the daily builder. -/
theorem c1_double_build_idempotent (db : DB) (h d now1 now2 : Int)
    (hHnone : db.hourly_aggregates.find? (fun a => a.hour_start == h) = none)
    (hHne : readingsInWindow db h (h + hourSeconds) ≠ [])
    (hDnone : db.daily_aggregates.find? (fun a => a.date == floorToDay d) = none)
    (hDne : readingsInWindow db (floorToDay d) (floorToDay d + daySeconds) ≠ []) :
    ((∃ a, (create_hourly_aggregate db h now1).1 = .created a) ∧
     (create_hourly_aggregate (create_hourly_aggregate db h now1).2 h now2).1
       = .alreadyExists ∧
     (create_hourly_aggregate (create_hourly_aggregate db h now1).2 h now2).2
       = (create_hourly_aggregate db h now1).2 ∧
     (hourlyRowsFor
        (create_hourly_aggregate (create_hourly_aggregate db h now1).2 h now2).2
        h).length = 1) ∧
    ((∃ a, (create_daily_aggregate db d now1).1 = .created a) ∧
     (create_daily_aggregate (create_daily_aggregate db d now1).2 d now2).1
       = .alreadyExists ∧
     (create_daily_aggregate (create_daily_aggregate db d now1).2 d now2).2
       = (create_daily_aggregate db d now1).2 ∧
     (dailyRowsFor
        (create_daily_aggregate (create_daily_aggregate db d now1).2 d now2).2
        (floorToDay d)).length = 1) := by
  constructor
  · rcases create_hourly_shape db h now1 with ⟨x, hf, _, _⟩ | ⟨he, _⟩ | ⟨a, _, _, _, ha, _, heq⟩
    · rw [hHnone] at hf; exact absurd hf (by simp)
    · exact absurd he hHne
    · have hdb1 : (create_hourly_aggregate db h now1).2 =
          { db with
              hourly_aggregates := db.hourly_aggregates ++ [a]
              next_hourly_id := db.next_hourly_id + 1 } := by
        rw [heq]
      have hfind1 : ((create_hourly_aggregate db h now1).2).hourly_aggregates.find?
          (fun x => x.hour_start == h) = some a := by
        rw [hdb1]
        simp only [List.find?_append, hHnone, Option.none_or]
        simp [ha]
      have hne1 : readingsInWindow (create_hourly_aggregate db h now1).2 h
          (h + hourSeconds) ≠ [] := by
        rw [readingsInWindow_congr (create_hourly_db_facts db h now1).1]
        exact hHne
      rcases create_hourly_shape (create_hourly_aggregate db h now1).2 h now2 with
        ⟨y, hf2, _, heq2⟩ | ⟨he2, _⟩ | ⟨b, hf2, _, _, _, _, _⟩
      · refine ⟨⟨a, by rw [heq]⟩, by rw [heq2], by rw [heq2], ?_⟩
        rw [heq2, hdb1]
        unfold hourlyRowsFor
        rw [List.filter_append,
          filter_nil_of_find?_none (fun x => x.hour_start == h) db.hourly_aggregates hHnone]
        simp [ha]
      · exact absurd he2 hne1
      · rw [hfind1] at hf2; exact absurd hf2 (by simp)
  · rcases create_daily_shape db d now1 with ⟨x, hf, _, _⟩ | ⟨he, _⟩ | ⟨a, _, _, _, ha, _, heq⟩
    · rw [hDnone] at hf; exact absurd hf (by simp)
    · exact absurd he hDne
    · have hdb1 : (create_daily_aggregate db d now1).2 =
          { db with
              daily_aggregates := db.daily_aggregates ++ [a]
              next_daily_id := db.next_daily_id + 1 } := by
        rw [heq]
      have hfind1 : ((create_daily_aggregate db d now1).2).daily_aggregates.find?
          (fun x => x.date == floorToDay d) = some a := by
        rw [hdb1]
        simp only [List.find?_append, hDnone, Option.none_or]
        simp [ha]
      have hne1 : readingsInWindow (create_daily_aggregate db d now1).2 (floorToDay d)
          (floorToDay d + daySeconds) ≠ [] := by
        rw [readingsInWindow_congr (create_daily_db_facts db d now1).1]
        exact hDne
      rcases create_daily_shape (create_daily_aggregate db d now1).2 d now2 with
        ⟨y, hf2, _, heq2⟩ | ⟨he2, _⟩ | ⟨b, hf2, _, _, _, _, _⟩
      · refine ⟨⟨a, by rw [heq]⟩, by rw [heq2], by rw [heq2], ?_⟩
        rw [heq2, hdb1]
        unfold dailyRowsFor
        rw [List.filter_append,
          filter_nil_of_find?_none (fun x => x.date == floorToDay d) db.daily_aggregates hDnone]
        simp [ha]
      · exact absurd he2 hne1
      · rw [hfind1] at hf2; exact absurd hf2 (by simp)

/-- Witness: one reading at t = 100, windows `[0, 3600)` and `[0, 86400)`:
both builders create on the first call and take the already-exists path on
the second, leaving exactly one row each. -/
theorem c1_double_build_idempotent_witness :
    c1DB.hourly_aggregates.find? (fun a => a.hour_start == 0) = none ∧
    readingsInWindow c1DB 0 (0 + hourSeconds) ≠ [] ∧
    ((∃ a, (create_hourly_aggregate c1DB 0 200).1 = .created a) ∧
     (create_hourly_aggregate (create_hourly_aggregate c1DB 0 200).2 0 300).1
       = .alreadyExists ∧
     (create_hourly_aggregate (create_hourly_aggregate c1DB 0 200).2 0 300).2
       = (create_hourly_aggregate c1DB 0 200).2 ∧
     (hourlyRowsFor
        (create_hourly_aggregate (create_hourly_aggregate c1DB 0 200).2 0 300).2
        0).length = 1) ∧
    ((∃ a, (create_daily_aggregate c1DB 0 200).1 = .created a) ∧
     (create_daily_aggregate (create_daily_aggregate c1DB 0 200).2 0 300).1
       = .alreadyExists ∧
     (create_daily_aggregate (create_daily_aggregate c1DB 0 200).2 0 300).2
       = (create_daily_aggregate c1DB 0 200).2 ∧
     (dailyRowsFor
        (create_daily_aggregate (create_daily_aggregate c1DB 0 200).2 0 300).2
        (floorToDay 0)).length = 1) := by
  have h := c1_double_build_idempotent c1DB 0 0 200 300 (by decide) (by decide)
    (by decide) (by decide)
  exact ⟨by decide, by decide, h.1, h.2⟩

/-- C2: across every operation of the repository, the aggregate tables
only ever shrink (rows preserved verbatim — aggregates are write-once,
never mutated) or grow by exactly one freshly created row whose
reading_count equals the exact number of readings in its half-open window
in the pre-state, i.e. at creation time.  Readings ingested afterwards are
therefore never reflected in a stored row. -/
theorem c2_aggregates_write_once_exact_count (op : Op) (db : DB) :
    ((applyOp op db).hourly_aggregates.Sublist db.hourly_aggregates ∨
      ∃ a : HourlyAggregate,
        (applyOp op db).hourly_aggregates = db.hourly_aggregates ++ [a] ∧
        a.reading_count =
          (readingsInWindow db a.hour_start (a.hour_start + hourSeconds)).length) ∧
    ((applyOp op db).daily_aggregates.Sublist db.daily_aggregates ∨
      ∃ a : DailyAggregate,
        (applyOp op db).daily_aggregates = db.daily_aggregates ++ [a] ∧
        a.reading_count =
          (readingsInWindow db a.date (a.date + daySeconds)).length) := by
  cases op with
  | ingest data now =>
    constructor
    · left
      simp only [applyOp, create_sensor_reading]
      exact List.Sublist.refl _
    · left
      simp only [applyOp, create_sensor_reading]
      exact List.Sublist.refl _
  | buildHourly h now =>
    constructor
    · rcases create_hourly_shape db h now with
        ⟨x, _, _, heq⟩ | ⟨_, heq⟩ | ⟨a, _, _, _, hstart, hcnt, heq⟩
      · left; simp [applyOp, heq]
      · left; simp [applyOp, heq]
      · right
        refine ⟨a, ?_, ?_⟩
        · simp [applyOp, heq]
        · rw [hstart]; exact hcnt
    · left
      have hd := (create_hourly_db_facts db h now).2
      simp only [applyOp]
      rw [hd]
  | buildDaily d now =>
    constructor
    · left
      have hh := (create_daily_db_facts db d now).2
      simp only [applyOp]
      rw [hh]
    · rcases create_daily_shape db d now with
        ⟨x, _, _, heq⟩ | ⟨_, heq⟩ | ⟨a, _, _, _, hstart, hcnt, heq⟩
      · left; simp [applyOp, heq]
      · left; simp [applyOp, heq]
      · right
        refine ⟨a, ?_, ?_⟩
        · simp [applyOp, heq]
        · rw [hstart]; exact hcnt
  | sweep now =>
    constructor
    · left
      simp only [applyOp, cleanup_old_data]
      exact List.filter_sublist _
    · left
      simp only [applyOp, cleanup_old_data]
      exact List.filter_sublist _

/-- C4: after a sweep, no reading older than the raw cutoff remains, no
hourly aggregate older than the hourly cutoff remains, no daily aggregate
older than the daily cutoff remains; and every row at or after its tier's
cutoff survives untouched (the very same row value). -/
theorem c4_sweep_enforces_retention (db : DB) (now : Int) :
    (∀ r ∈ (cleanup_old_data db now).db.sensor_readings,
        ¬ r.timestamp < now - RAW_DATA_RETENTION_DAYS * daySeconds) ∧
    (∀ r ∈ db.sensor_readings,
        ¬ r.timestamp < now - RAW_DATA_RETENTION_DAYS * daySeconds →
        r ∈ (cleanup_old_data db now).db.sensor_readings) ∧
    (∀ a ∈ (cleanup_old_data db now).db.hourly_aggregates,
        ¬ a.hour_start < now - HOURLY_DATA_RETENTION_DAYS * daySeconds) ∧
    (∀ a ∈ db.hourly_aggregates,
        ¬ a.hour_start < now - HOURLY_DATA_RETENTION_DAYS * daySeconds →
        a ∈ (cleanup_old_data db now).db.hourly_aggregates) ∧
    (∀ a ∈ (cleanup_old_data db now).db.daily_aggregates,
        ¬ a.date < now - DAILY_DATA_RETENTION_DAYS * daySeconds) ∧
    (∀ a ∈ db.daily_aggregates,
        ¬ a.date < now - DAILY_DATA_RETENTION_DAYS * daySeconds →
        a ∈ (cleanup_old_data db now).db.daily_aggregates) := by
  refine ⟨?_, ?_, ?_, ?_, ?_, ?_⟩
  · intro r hr
    simp only [cleanup_old_data, List.mem_filter, Bool.not_eq_true',
      decide_eq_false_iff_not] at hr
    exact hr.2
  · intro r hr hkeep
    simp only [cleanup_old_data, List.mem_filter, Bool.not_eq_true',
      decide_eq_false_iff_not]
    exact ⟨hr, hkeep⟩
  · intro a ha
    simp only [cleanup_old_data, List.mem_filter, Bool.not_eq_true',
      decide_eq_false_iff_not] at ha
    exact ha.2
  · intro a ha hkeep
    simp only [cleanup_old_data, List.mem_filter, Bool.not_eq_true',
      decide_eq_false_iff_not]
    exact ⟨ha, hkeep⟩
  · intro a ha
    simp only [cleanup_old_data, List.mem_filter, Bool.not_eq_true',
      decide_eq_false_iff_not] at ha
    exact ha.2
  · intro a ha hkeep
    simp only [cleanup_old_data, List.mem_filter, Bool.not_eq_true',
      decide_eq_false_iff_not]
    exact ⟨ha, hkeep⟩

/-- Witness: sweeping `c4DB` at day 20 keeps the reading from day 19, the
hourly row from day 14 and the daily row from day 7, while the day-0 rows
are past every cutoff. -/
theorem c4_sweep_enforces_retention_witness :
    (sampleReading 2 (19 * 86400 + 10) ∈
      (cleanup_old_data c4DB c4Now).db.sensor_readings) ∧
    (¬ (sampleHourly 2 (14 * 86400)).hour_start <
        c4Now - HOURLY_DATA_RETENTION_DAYS * daySeconds) ∧
    (sampleDaily 2 (7 * 86400) ∈
      (cleanup_old_data c4DB c4Now).db.daily_aggregates) :=
  ⟨(c4_sweep_enforces_retention c4DB c4Now).2.1 _ (by decide) (by decide),
   (c4_sweep_enforces_retention c4DB c4Now).2.2.1 _ (by decide),
   (c4_sweep_enforces_retention c4DB c4Now).2.2.2.2.2 _ (by decide) (by decide)⟩

/-- C10 counterexample: a sweep that deletes one row per tier computes and
logs the counts 1, 1, 1, yet the function's value is `None` — the counts
are not returned to the caller as the claim states. -/
theorem c10_counterexample_returns_none :
    (cleanup_old_data c10DB (20 * 86400)).raw_deleted = 1 ∧
    (cleanup_old_data c10DB (20 * 86400)).hourly_deleted = 1 ∧
    (cleanup_old_data c10DB (20 * 86400)).daily_deleted = 1 ∧
    (cleanup_old_data c10DB (20 * 86400)).returned = none ∧
    (cleanup_old_data c10DB (20 * 86400)).returned ≠
      some ((cleanup_old_data c10DB (20 * 86400)).raw_deleted,
            (cleanup_old_data c10DB (20 * 86400)).hourly_deleted,
            (cleanup_old_data c10DB (20 * 86400)).daily_deleted) := by
  decide

/-- C10 amended: cleanup_old_data computes and logs three per-tier
rowcounts, each equal to the number of rows actually deleted from the
corresponding table, but returns `None` to its caller rather than the
counts. -/
theorem c10_amended_counts_logged_not_returned (db : DB) (now : Int) :
    (cleanup_old_data db now).returned = none ∧
    (cleanup_old_data db now).raw_deleted +
      (cleanup_old_data db now).db.sensor_readings.length =
      db.sensor_readings.length ∧
    (cleanup_old_data db now).hourly_deleted +
      (cleanup_old_data db now).db.hourly_aggregates.length =
      db.hourly_aggregates.length ∧
    (cleanup_old_data db now).daily_deleted +
      (cleanup_old_data db now).db.daily_aggregates.length =
      db.daily_aggregates.length := by
  refine ⟨rfl, ?_, ?_, ?_⟩ <;>
    · simp only [cleanup_old_data]
      exact (List.length_eq_length_filter_add _).symm

/-- C8 counterexample: with the raw tier's DELETE raising a store failure,
the exception propagates (no log-and-continue), and the expired hourly and
daily rows survive the sweep even though a failure-free sweep would have
deleted them — one tier's failure does block the sibling tiers. -/
theorem c8_counterexample_failure_blocks_siblings :
    (cleanup_old_data_fallible c8FailRaw c8DB c8Now).error = some Tier.raw ∧
    (cleanup_old_data_fallible c8FailRaw c8DB c8Now).db = c8DB ∧
    sampleDaily 1 0 ∈
      (cleanup_old_data_fallible c8FailRaw c8DB c8Now).db.daily_aggregates ∧
    (sampleDaily 1 0).date < c8Now - DAILY_DATA_RETENTION_DAYS * daySeconds ∧
    (cleanup_old_data c8DB c8Now).db.hourly_aggregates = [] ∧
    (cleanup_old_data c8DB c8Now).db.daily_aggregates = [] := by
  decide

/-- C8 amended: each tier's deletion is separately committed, so a later
tier's failure never rolls back the raw tier's committed deletions; but a
failing tier's exception propagates out of the sweep and the remaining
tiers are skipped rather than logged-and-continued. -/
theorem c8_amended_commits_kept_rest_skipped (failsOn : Tier → Bool)
    (db : DB) (now : Int) (hraw : failsOn .raw = false) :
    ((cleanup_old_data_fallible failsOn db now).db.sensor_readings =
      db.sensor_readings.filter
        (fun r => !(decide (r.timestamp < now - RAW_DATA_RETENTION_DAYS * daySeconds)))) ∧
    (failsOn .hourly = true →
      (cleanup_old_data_fallible failsOn db now).error = some .hourly ∧
      (cleanup_old_data_fallible failsOn db now).db.hourly_aggregates =
        db.hourly_aggregates ∧
      (cleanup_old_data_fallible failsOn db now).db.daily_aggregates =
        db.daily_aggregates) := by
  constructor
  · by_cases hh : failsOn .hourly = true
    · simp [cleanup_old_data_fallible, hraw, hh]
    · by_cases hd : failsOn .daily = true
      · simp [cleanup_old_data_fallible, hraw, hh, hd]
      · simp [cleanup_old_data_fallible, hraw, hh, hd]
  · intro hh
    simp [cleanup_old_data_fallible, hraw, hh]

/-- Witness: with only the hourly tier failing on `c8DB`, the raw deletion
stays committed while hourly and daily tables are untouched and the error
propagates from the hourly tier. -/
theorem c8_amended_commits_kept_rest_skipped_witness :
    ((cleanup_old_data_fallible c8FailHourly c8DB c8Now).db.sensor_readings =
      c8DB.sensor_readings.filter
        (fun r => !(decide (r.timestamp < c8Now - RAW_DATA_RETENTION_DAYS * daySeconds)))) ∧
    ((cleanup_old_data_fallible c8FailHourly c8DB c8Now).error = some .hourly ∧
     (cleanup_old_data_fallible c8FailHourly c8DB c8Now).db.hourly_aggregates =
       c8DB.hourly_aggregates ∧
     (cleanup_old_data_fallible c8FailHourly c8DB c8Now).db.daily_aggregates =
       c8DB.daily_aggregates) :=
  ⟨(c8_amended_commits_kept_rest_skipped c8FailHourly c8DB c8Now (by decide)).1,
   (c8_amended_commits_kept_rest_skipped c8FailHourly c8DB c8Now (by decide)).2
     (by decide)⟩

lemma hourly_build_length (db : DB) (h now : Int) :
    ((create_hourly_aggregate db h now).1.returnValue.isSome = true ∧
     (create_hourly_aggregate db h now).2.hourly_aggregates.length =
       db.hourly_aggregates.length + 1)
    ∨ ((create_hourly_aggregate db h now).1.returnValue.isSome = false ∧
       (create_hourly_aggregate db h now).2 = db) := by
  rcases create_hourly_shape db h now with
    ⟨x, _, _, heq⟩ | ⟨_, heq⟩ | ⟨a, _, _, _, _, _, heq⟩
  · right; rw [heq]; exact ⟨rfl, rfl⟩
  · right; rw [heq]; exact ⟨rfl, rfl⟩
  · left; rw [heq]; exact ⟨rfl, by simp [BuildOutcome.returnValue]⟩

lemma daily_build_length (db : DB) (d now : Int) :
    ((create_daily_aggregate db d now).1.returnValue.isSome = true ∧
     (create_daily_aggregate db d now).2.daily_aggregates.length =
       db.daily_aggregates.length + 1)
    ∨ ((create_daily_aggregate db d now).1.returnValue.isSome = false ∧
       (create_daily_aggregate db d now).2 = db) := by
  rcases create_daily_shape db d now with
    ⟨x, _, _, heq⟩ | ⟨_, heq⟩ | ⟨a, _, _, _, _, _, heq⟩
  · right; rw [heq]; exact ⟨rfl, rfl⟩
  · right; rw [heq]; exact ⟨rfl, rfl⟩
  · left; rw [heq]; exact ⟨rfl, by simp [BuildOutcome.returnValue]⟩

/-- C6 counterexample: an empty window and a duplicate window take
different return paths but yield the very same Python return value `None`,
so no caller can tell them apart; accordingly the manual aggregation
trigger on a completely empty database reports "already exists" for both
tiers although no aggregate row exists at all. -/
theorem c6_counterexample_outcomes_collapse :
    (create_hourly_aggregate initialDB 36000 50).1 = .empty ∧
    (create_hourly_aggregate c6DupDB 36000 50).1 = .alreadyExists ∧
    (create_hourly_aggregate initialDB 36000 50).1.returnValue =
      (create_hourly_aggregate c6DupDB 36000 50).1.returnValue ∧
    (run_manual_aggregation initialDB 100000).message =
      "Aggregation completed. Hourly: already exists, Daily: already exists" ∧
    (run_manual_aggregation initialDB 100000).db.hourly_aggregates = [] ∧
    (run_manual_aggregation initialDB 100000).db.daily_aggregates = [] := by
  decide

/-- C6 amended: the builders' Python return value distinguishes only two
classes — the created aggregate versus `None`, where `None` covers both
AlreadyExists and Empty — and the manual aggregation trigger reports
"created" exactly when a row was newly inserted and "already exists" in
every other case, including an empty window. -/
theorem c6_amended_created_vs_none (db : DB) (now : Int) :
    (∀ (α : Type) (o : BuildOutcome α),
        o.returnValue = none ↔ (o = .alreadyExists ∨ o = .empty)) ∧
    ((run_manual_aggregation db now).hourly_status = "created" ↔
      (run_manual_aggregation db now).db.hourly_aggregates.length =
        db.hourly_aggregates.length + 1) ∧
    ((run_manual_aggregation db now).hourly_status = "already exists" ↔
      (run_manual_aggregation db now).db.hourly_aggregates.length =
        db.hourly_aggregates.length) ∧
    ((run_manual_aggregation db now).daily_status = "created" ↔
      (run_manual_aggregation db now).db.daily_aggregates.length =
        db.daily_aggregates.length + 1) ∧
    ((run_manual_aggregation db now).daily_status = "already exists" ↔
      (run_manual_aggregation db now).db.daily_aggregates.length =
        db.daily_aggregates.length) := by
  refine ⟨?_, ?_⟩
  · intro α o
    cases o <;> simp [BuildOutcome.returnValue]
  · have hHdaily := (create_hourly_db_facts db (floorToHour now - hourSeconds) now).2
    have hDhourly :=
      (create_daily_db_facts (create_hourly_aggregate db (floorToHour now - hourSeconds) now).2
        (floorToDay (now - daySeconds)) now).2
    rcases hourly_build_length db (floorToHour now - hourSeconds) now with
      ⟨hsome, hlen⟩ | ⟨hnone, hsame⟩ <;>
      rcases daily_build_length
        (create_hourly_aggregate db (floorToHour now - hourSeconds) now).2
        (floorToDay (now - daySeconds)) now with
        ⟨dsome, dlen⟩ | ⟨dnone, dsame⟩ <;>
      simp only [run_manual_aggregation, hHdaily] <;>
      (refine ⟨?_, ?_, ?_, ?_⟩ <;> simp_all [hDhourly])


lemma run_background_tasks_foldl (wakeups : List Int) :
    ∀ (db : DB) (n : Nat),
      wakeups.foldl
        (fun acc now =>
          let step := run_background_tasks_cycle acc.1 now
          (step.1, acc.2 + (if step.2.isSome then 1 else 0)))
        (db, n) = (db, n + wakeups.length) := by
  induction wakeups with
  | nil => intro db n; simp
  | cons w ws ih =>
    intro db n
    have hengine : crud_engine = none := by decide
    have hcyc : run_background_tasks_cycle db w = (db, some .attributeError) := by
      simp [run_background_tasks_cycle, hengine]
    simp only [List.foldl_cons, hcyc, Option.isSome_some, if_pos]
    rw [ih db (n + 1)]
    simp only [List.length_cons]
    rw [Nat.add_assoc, Nat.add_comm 1]

/-- C9 (bug demonstration): `main.py` opens the scheduler cycle's session
with `AsyncSession(bind=crud.engine)`, but `app/crud.py` defines no module
attribute `engine`, so every single cycle raises AttributeError before any
build or sweep runs; the `except Exception` clause catches and logs it and
the loop keeps firing.  Hence over any schedule of wakeups the scheduler
survives (all cycles attempted, one logged error each) but the database is
never touched — no cycle ever performs buildHourly, buildDaily or the
sweep. -/
theorem c9_scheduler_cycles_never_do_work :
    crud_engine = none ∧
    ∀ (db : DB) (wakeups : List Int),
      run_background_tasks db wakeups = (db, wakeups.length) := by
  refine ⟨by decide, ?_⟩
  intro db wakeups
  unfold run_background_tasks
  rw [run_background_tasks_foldl wakeups db 0]
  simp

lemma threadStep_keeps_at_most_one (h now : Int) (db : DB) (pc : ThreadPc)
    (hle : (hourlyRowsFor db h).length ≤ 1) :
    (hourlyRowsFor (threadStep h now db pc).2 h).length ≤ 1 := by
  cases pc with
  | atStats =>
    simp only [threadStep]
    split <;> exact hle
  | atCheck stats =>
    simp only [threadStep]
    split <;> exact hle
  | atInsert stats =>
    simp only [threadStep]
    split
    · exact hle
    · rename_i hfind
      have hnone : db.hourly_aggregates.find? (fun a => a.hour_start == h) = none := by
        cases hf : db.hourly_aggregates.find? (fun a => a.hour_start == h) with
        | none => rfl
        | some x => rw [hf] at hfind; simp at hfind
      unfold hourlyRowsFor
      simp [List.filter_append, filter_nil_of_find?_none _ _ hnone]
  | finished o => exact hle

lemma sysStep_keeps_at_most_one (h now : Int) (b : Bool) (s : TwoCallSys)
    (hle : (hourlyRowsFor s.db h).length ≤ 1) :
    (hourlyRowsFor (sysStep h now b s).db h).length ≤ 1 := by
  cases b
  · exact threadStep_keeps_at_most_one h now s.db s.pc0 hle
  · exact threadStep_keeps_at_most_one h now s.db s.pc1 hle

lemma foldl_keeps_at_most_one (h now : Int) (schedule : List Bool) :
    ∀ s : TwoCallSys, (hourlyRowsFor s.db h).length ≤ 1 →
      (hourlyRowsFor
        (schedule.foldl (fun s b => sysStep h now b s) s).db h).length ≤ 1 := by
  induction schedule with
  | nil => intro s hs; exact hs
  | cons b bs ih =>
    intro s hs
    exact ih _ (sysStep_keeps_at_most_one h now b s hs)

unseal Rat.add Rat.mul Rat.inv in
lemma c5ReachSet_closed :
    ∀ s ∈ c5ReachSet,
      sysStep 36000 c5Now false s ∈ c5ReachSet ∧
      sysStep 36000 c5Now true s ∈ c5ReachSet := by
  decide

unseal Rat.add Rat.mul Rat.inv in
lemma c5Run_mem (schedule : List Bool) : c5Run schedule ∈ c5ReachSet := by
  have hinit : (⟨.atStats, .atStats, c5DB⟩ : TwoCallSys) ∈ c5ReachSet := by decide
  unfold c5Run runTwoCalls
  generalize hs0 : (⟨.atStats, .atStats, c5DB⟩ : TwoCallSys) = s0 at hinit
  clear hs0
  induction schedule generalizing s0 with
  | nil => exact hinit
  | cons b bs ih =>
    cases b
    · exact ih _ (c5ReachSet_closed s0 hinit).1
    · exact ih _ (c5ReachSet_closed s0 hinit).2

unseal Rat.add Rat.mul Rat.inv in
lemma c5ReachSet_outcomes :
    ∀ s ∈ c5ReachSet,
      (hourlyRowsFor s.db 36000).length ≤ 1 ∧
      (s.pc0.isFinished = true ∧ s.pc1.isFinished = true →
        (s.pc0 = .finished (.created c5Agg) ∧
          (s.pc1 = .finished .alreadyExists ∨
           s.pc1 = .finished .integrityError)) ∨
        (s.pc1 = .finished (.created c5Agg) ∧
          (s.pc0 = .finished .alreadyExists ∨
           s.pc0 = .finished .integrityError))) := by
  decide

/-- C5 amended: under every interleaving of two concurrent
create_hourly_aggregate calls for the same window key, at most one
aggregate row is ever stored for that key (the uniqueness constraint on
`hour_start` is the backstop when both callers pass the existence check);
and in the spec's scenario (one reading present, no aggregate yet), once
both callers have completed, one of them created the unique row and the
other observed either the AlreadyExists return path or an IntegrityError
raised by the uniqueness constraint — not necessarily AlreadyExists. -/
theorem c5_amended_concurrent_builds (db : DB) (h now : Int)
    (schedule other : List Bool)
    (hle : (hourlyRowsFor db h).length ≤ 1) :
    (hourlyRowsFor (runTwoCalls h now db schedule).db h).length ≤ 1 ∧
    ((hourlyRowsFor (c5Run other).db 36000).length ≤ 1 ∧
      ((c5Run other).pc0.isFinished = true ∧ (c5Run other).pc1.isFinished = true →
        ((c5Run other).pc0 = .finished (.created c5Agg) ∧
          ((c5Run other).pc1 = .finished .alreadyExists ∨
           (c5Run other).pc1 = .finished .integrityError)) ∨
        ((c5Run other).pc1 = .finished (.created c5Agg) ∧
          ((c5Run other).pc0 = .finished .alreadyExists ∨
           (c5Run other).pc0 = .finished .integrityError)))) := by
  constructor
  · unfold runTwoCalls
    exact foldl_keeps_at_most_one h now schedule _ hle
  · exact c5ReachSet_outcomes (c5Run other) (c5Run_mem other)

unseal Rat.add Rat.mul Rat.inv in
/-- Witness: the race interleaving discharges the hypotheses — `c5DB` has
no row for 36000, both callers finish, the winner created the unique row
and the loser got the constraint violation. -/
theorem c5_amended_concurrent_builds_witness :
    (hourlyRowsFor (runTwoCalls 36000 c5Now c5DB c5RaceSchedule).db 36000).length ≤ 1 ∧
    (((c5Run c5RaceSchedule).pc0 = .finished (.created c5Agg) ∧
      ((c5Run c5RaceSchedule).pc1 = .finished .alreadyExists ∨
       (c5Run c5RaceSchedule).pc1 = .finished .integrityError)) ∨
     ((c5Run c5RaceSchedule).pc1 = .finished (.created c5Agg) ∧
      ((c5Run c5RaceSchedule).pc0 = .finished .alreadyExists ∨
       (c5Run c5RaceSchedule).pc0 = .finished .integrityError))) := by
  have h := c5_amended_concurrent_builds c5DB 36000 c5Now c5RaceSchedule
    c5RaceSchedule (by decide)
  exact ⟨h.1, h.2.2 (by decide)⟩

unseal Rat.add Rat.mul Rat.inv in
/-- C5 counterexample to the claim as stated: under the racing
interleaving both callers pass the existence check before either inserts;
the loser then observes an IntegrityError from the uniqueness constraint,
so neither of the two callers observes the AlreadyExists outcome, although
exactly one row is stored. -/
theorem c5_counterexample_race_yields_integrity_error :
    (c5Run c5RaceSchedule).pc0 = .finished (.created c5Agg) ∧
    (c5Run c5RaceSchedule).pc1 = .finished .integrityError ∧
    (c5Run c5RaceSchedule).pc0 ≠ .finished .alreadyExists ∧
    (c5Run c5RaceSchedule).pc1 ≠ .finished .alreadyExists ∧
    (hourlyRowsFor (c5Run c5RaceSchedule).db 36000).length = 1 := by
  decide

lemma reachable_inv {db : DB} (hdb : Reachable db) :
    (db.hourly_aggregates.map (fun a => a.hour_start)).Nodup ∧
    (∀ a ∈ db.hourly_aggregates, a.hour_start % 3600 = 0) ∧
    (db.daily_aggregates.map (fun a => a.date)).Nodup ∧
    (∀ a ∈ db.daily_aggregates, a.date % 86400 = 0) := by
  induction hdb with
  | init => refine ⟨by simp [initialDB], by simp [initialDB], by simp [initialDB], by simp [initialDB]⟩
  | ingest data now hr ih =>
    simpa [applyOp, create_sensor_reading] using ih
  | buildHourly h now hr halign ih =>
    obtain ⟨h1, h2, h3, h4⟩ := ih
    rename_i db'
    rcases create_hourly_shape db' h now with
      ⟨x, _, _, heq⟩ | ⟨_, heq⟩ | ⟨a, hfind, _, _, hstart, _, heq⟩
    · simp only [applyOp, heq]
      exact ⟨h1, h2, h3, h4⟩
    · simp only [applyOp, heq]
      exact ⟨h1, h2, h3, h4⟩
    · have hnotmem : h ∉ db'.hourly_aggregates.map (fun a => a.hour_start) := by
        intro hmem
        obtain ⟨y, hy, hyk⟩ := List.mem_map.mp hmem
        have := List.find?_eq_none.mp hfind y hy
        simp [hyk] at this
      simp only [applyOp, heq]
      refine ⟨?_, ?_, h3, h4⟩
      · simp only [List.map_append, List.map_cons, List.map_nil]
        rw [List.nodup_append]
        refine ⟨h1, by simp, ?_⟩
        intro k hk
        simp only [hstart, List.mem_cons, List.not_mem_nil, or_false]
        intro hkh
        exact hnotmem (hkh ▸ hk)
      · intro x hx
        rcases List.mem_append.mp hx with hx | hx
        · exact h2 x hx
        · rcases List.mem_singleton.mp hx with rfl
          rw [hstart]
          exact halign
  | buildDaily d now hr ih =>
    obtain ⟨h1, h2, h3, h4⟩ := ih
    rename_i db'
    rcases create_daily_shape db' d now with
      ⟨x, _, _, heq⟩ | ⟨_, heq⟩ | ⟨a, hfind, _, _, hstart, _, heq⟩
    · simp only [applyOp, heq]
      exact ⟨h1, h2, h3, h4⟩
    · simp only [applyOp, heq]
      exact ⟨h1, h2, h3, h4⟩
    · have hnotmem : floorToDay d ∉ db'.daily_aggregates.map (fun a => a.date) := by
        intro hmem
        obtain ⟨y, hy, hyk⟩ := List.mem_map.mp hmem
        have := List.find?_eq_none.mp hfind y hy
        simp [hyk] at this
      simp only [applyOp, heq]
      refine ⟨h1, h2, ?_, ?_⟩
      · simp only [List.map_append, List.map_cons, List.map_nil]
        rw [List.nodup_append]
        refine ⟨h3, by simp, ?_⟩
        intro k hk
        simp only [hstart, List.mem_cons, List.not_mem_nil, or_false]
        intro hkh
        exact hnotmem (hkh ▸ hk)
      · intro x hx
        rcases List.mem_append.mp hx with hx | hx
        · exact h4 x hx
        · rcases List.mem_singleton.mp hx with rfl
          rw [hstart]
          unfold floorToDay
          exact Int.mul_emod_right 86400 _
  | sweep now hr ih =>
    obtain ⟨h1, h2, h3, h4⟩ := ih
    refine ⟨?_, ?_, ?_, ?_⟩
    · simp only [applyOp, cleanup_old_data]
      exact List.Nodup.sublist (List.Sublist.map _ (List.filter_sublist _)) h1
    · intro a ha
      simp only [applyOp, cleanup_old_data, List.mem_filter] at ha
      exact h2 a ha.1
    · simp only [applyOp, cleanup_old_data]
      exact List.Nodup.sublist (List.Sublist.map _ (List.filter_sublist _)) h3
    · intro a ha
      simp only [applyOp, cleanup_old_data, List.mem_filter] at ha
      exact h4 a ha.1

/-- C7: in every state reachable from the fresh database under callers
that pre-floor the hourly builder's input to an hour boundary (the daily
builder floors internally), the windows of any two distinct stored
aggregates of the same tier are disjoint: no instant lies in both
half-open windows. -/
theorem c7_windows_never_overlap (db : DB) (hdb : Reachable db) :
    (∀ a ∈ db.hourly_aggregates, ∀ b ∈ db.hourly_aggregates, a ≠ b →
      ∀ t : Int, ¬((a.hour_start ≤ t ∧ t < a.hour_start + hourSeconds) ∧
                   (b.hour_start ≤ t ∧ t < b.hour_start + hourSeconds))) ∧
    (∀ a ∈ db.daily_aggregates, ∀ b ∈ db.daily_aggregates, a ≠ b →
      ∀ t : Int, ¬((a.date ≤ t ∧ t < a.date + daySeconds) ∧
                   (b.date ≤ t ∧ t < b.date + daySeconds))) := by
  obtain ⟨h1, h2, h3, h4⟩ := reachable_inv hdb
  constructor
  · rintro a ha b hb hab t ⟨⟨ha1, ha2⟩, hb1, hb2⟩
    have hkey : a.hour_start ≠ b.hour_start := by
      intro hk
      exact hab (List.inj_on_of_nodup_map h1 ha hb hk)
    have h2a := h2 a ha
    have h2b := h2 b hb
    unfold hourSeconds at ha2 hb2
    omega
  · rintro a ha b hb hab t ⟨⟨ha1, ha2⟩, hb1, hb2⟩
    have hkey : a.date ≠ b.date := by
      intro hk
      exact hab (List.inj_on_of_nodup_map h3 ha hb hk)
    have h4a := h4 a ha
    have h4b := h4 b hb
    unfold daySeconds at ha2 hb2
    omega

lemma c7WitnessDB_reachable : Reachable c7WitnessDB := by
  unfold c7WitnessDB
  exact Reachable.buildDaily _ _
    (Reachable.buildDaily _ _
      (Reachable.buildHourly _ _
        (Reachable.buildHourly _ _
          (Reachable.ingest _ _
            (Reachable.ingest _ _
              (Reachable.ingest _ _ .init)))
          (by decide))
        (by decide)))

unseal Rat.add Rat.mul Rat.inv in
/-- Witness: the reachable state `c7WitnessDB` holds two hourly aggregates
(hours 0 and 3600) and two daily aggregates (days 0 and 86400); no instant
(for example 1800, resp. 43200) lies in two windows of the same tier. -/
theorem c7_windows_never_overlap_witness :
    c7RowA ∈ c7WitnessDB.hourly_aggregates ∧
    c7RowB ∈ c7WitnessDB.hourly_aggregates ∧
    c7RowA ≠ c7RowB ∧
    (¬((c7RowA.hour_start ≤ 1800 ∧ 1800 < c7RowA.hour_start + hourSeconds) ∧
       (c7RowB.hour_start ≤ 1800 ∧ 1800 < c7RowB.hour_start + hourSeconds))) ∧
    c7RowC ∈ c7WitnessDB.daily_aggregates ∧
    c7RowD ∈ c7WitnessDB.daily_aggregates ∧
    c7RowC ≠ c7RowD ∧
    (¬((c7RowC.date ≤ 43200 ∧ 43200 < c7RowC.date + daySeconds) ∧
       (c7RowD.date ≤ 43200 ∧ 43200 < c7RowD.date + daySeconds))) :=
  ⟨by decide, by decide, by decide,
   (c7_windows_never_overlap c7WitnessDB c7WitnessDB_reachable).1
     c7RowA (by decide) c7RowB (by decide) (by decide) 1800,
   by decide, by decide, by decide,
   (c7_windows_never_overlap c7WitnessDB c7WitnessDB_reachable).2
     c7RowC (by decide) c7RowD (by decide) (by decide) 43200⟩

end Vayu
